import Mathlib

/-!
Shallow embedding of the clippy lint `use_crate_prefix_for_self_imports`
(file `clippy_lints/src/use_crate_prefix_for_self_imports.rs`).

The lint has two phases:
* `check_crate` scans the session source map and collects, into `mod_set`,
  the file stem of the second path component of every local-crate file's
  root-relative path;
* `check_item` flags a `use` item whose leading path segment is in
  `mod_set`, suggesting `crate::` + the original span text.

Paths are modelled as an absoluteness flag plus the component list that
Rust's `Path::components()` yields.  The source map, working directory and
snippet lookup are modelled as an explicit context record.  A call to
`span_lint_and_sugg` is modelled by returning the `Diagnostic` record it
would receive; the `.unwrap()` on `snippet_opt` is modelled by a distinct
`panicked` outcome.
-/

/-- A filesystem path: absoluteness plus the component list produced by
Rust's `Path::components()` (which drops `.` components). -/
structure PathBuf where
  absolute : Bool
  components : List String
  deriving DecidableEq, Repr

/-- Rust `Path::is_relative`. -/
def PathBuf.is_relative (p : PathBuf) : Bool := !p.absolute

/-- Rust `Path::strip_prefix`: succeeds when `base`'s components are a
prefix of `p`'s (and the two agree on absoluteness), returning the
remaining components as a relative path. -/
def PathBuf.strip_prefix (p base : PathBuf) : Option PathBuf :=
  if p.absolute == base.absolute && List.isPrefixOf base.components p.components then
    some ⟨false, p.components.drop base.components.length⟩
  else
    none

/-- The characters of a file name standing before its last `.`, if the name
has a `.` at all.  Helper for `file_stem`. -/
def beforeLastDot : List Char → Option (List Char)
  | [] => none
  | c :: cs =>
    match beforeLastDot cs with
    | some r => some (c :: r)
    | none => if c = '.' then some [] else none

/-- Rust `Path::file_stem` applied to a single path component: `.` and `..`
have no file name, a name whose only `.` is its first character (or that
has no `.`) is its own stem, and otherwise the stem is the portion before
the final `.`. -/
def file_stem (c : String) : Option String :=
  if c = "" ∨ c = "." ∨ c = ".." then none
  else
    match beforeLastDot c.toList with
    | none => some c
    | some [] => some c
    | some pre => some (String.mk pre)

/-- Rust `FileName`: a real file carries `RealFileName::local_path()`
(absent for remapped paths); every other variant is collapsed into
`other`. -/
inductive FileName where
  | real (local_path : Option PathBuf)
  | other
  deriving DecidableEq, Repr

/-- The crate number of the local crate (`LOCAL_CRATE`). -/
def LOCAL_CRATE : Nat := 0

/-- One entry of the session source map: its `FileName` and the number of
the crate it was loaded for (`SourceFile::cnum`). -/
structure SourceFile where
  name : FileName
  cnum : Nat
  deriving DecidableEq, Repr

/-- The pieces of `EarlyContext` the lint consults: the source-map file
list, `sess.opts.working_dir.local_path()`, and `snippet_opt` as a map
from span ids to the optional literal text. -/
structure EarlyContext where
  source_files : List SourceFile
  working_dir_local_path : Option PathBuf
  snippet : Nat → Option String

/-- One segment of an AST path; only `ident.name` matters to the lint. -/
structure PathSegment where
  ident_name : String
  deriving DecidableEq, Repr

/-- A `use` tree: the segments of its path (the Rust field is
`use_tree.prefix.segments`; `prefix` is a Lean keyword, hence the flattened
name) and its span id. -/
structure UseTree where
  prefix_segments : List PathSegment
  span : Nat
  deriving DecidableEq, Repr

/-- An item kind: a `use` item or anything else. -/
inductive ItemKind where
  | use (tree : UseTree)
  | other
  deriving DecidableEq, Repr

/-- An AST item; only its kind matters to the lint. -/
structure Item where
  kind : ItemKind
  deriving DecidableEq, Repr

/-- Rustc `Applicability` levels. -/
inductive Applicability where
  | MachineApplicable
  | MaybeIncorrect
  | HasPlaceholders
  | Unspecified
  deriving DecidableEq, Repr

/-- The record `span_lint_and_sugg` receives: span, message, help text,
suggestion text and applicability. -/
structure Diagnostic where
  span : Nat
  msg : String
  help : String
  sugg : String
  applicability : Applicability
  deriving DecidableEq, Repr

/-- The lint pass state: the accumulated set of top-level module names
(`mod_set: FxHashSet<OsString>`, modelled as a `Finset` of strings). -/
structure UseCratePrefixForSelfImports where
  mod_set : Finset String
  deriving DecidableEq

/-- `#[derive(Default)]`: the pass starts with an empty `mod_set`. -/
def UseCratePrefixForSelfImports.default : UseCratePrefixForSelfImports := ⟨∅⟩

/-- The body of `check_crate`'s inner `if let Some(root) = path.components().nth(1)`
block: insert the file stem of the second component, when both exist. -/
def insert_mod_from (s : Finset String) (path : PathBuf) : Finset String :=
  match path.components.get? 1 with
  | some root =>
    match file_stem root with
    | some mod_name => insert mod_name s
    | none => s
  | none => s

/-- The body of `check_crate`'s loop for one source file: keep only real
local-crate files with a local path, use a relative path as-is, strip the
working-directory prefix from an absolute one, and `continue` (skip) when
stripping fails. -/
def collect_file (trim_to_src : PathBuf) (s : Finset String) (file : SourceFile) :
    Finset String :=
  match file.name with
  | FileName.real (some lp) =>
    if file.cnum = LOCAL_CRATE then
      if lp.is_relative then
        insert_mod_from s lp
      else
        match lp.strip_prefix trim_to_src with
        | some relative => insert_mod_from s relative
        | none => s
    else s
  | FileName.real none => s
  | FileName.other => s

/-- `EarlyLintPass::check_crate`: bail out when the working directory has
no local path, otherwise fold `collect_file` over the source map. -/
def check_crate (self : UseCratePrefixForSelfImports) (cx : EarlyContext) :
    UseCratePrefixForSelfImports :=
  match cx.working_dir_local_path with
  | none => self
  | some trim_to_src => ⟨cx.source_files.foldl (collect_file trim_to_src) self.mod_set⟩

/-- Outcome of one `check_item` call: a diagnostic was emitted, nothing
happened, or the pass panicked (the `.unwrap()` on `snippet_opt`). -/
inductive ItemResult where
  | emitted (d : Diagnostic)
  | silent
  | panicked
  deriving DecidableEq, Repr

/-- `EarlyLintPass::check_item`: on a `use` item whose first path segment's
name is in `mod_set`, call `span_lint_and_sugg` with the fixed message and
the suggestion `crate::` + the span's snippet; the snippet is obtained by
`snippet_opt(cx, use_tree.span).unwrap()`, which panics when the snippet is
absent.  The pass state is returned unchanged alongside the outcome. -/
def check_item (self : UseCratePrefixForSelfImports) (cx : EarlyContext) (item : Item) :
    UseCratePrefixForSelfImports × ItemResult :=
  match item.kind with
  | ItemKind.use use_tree =>
    match use_tree.prefix_segments.head? with
    | some x =>
      if x.ident_name ∈ self.mod_set then
        match cx.snippet use_tree.span with
        | some snip =>
          (self, ItemResult.emitted
            { span := use_tree.span
              msg := "this import is not clear"
              help := "prefix with `crate::`"
              sugg := "crate::" ++ snip
              applicability := Applicability.MachineApplicable })
        | none => (self, ItemResult.panicked)
      else (self, ItemResult.silent)
    | none => (self, ItemResult.silent)
  | ItemKind.other => (self, ItemResult.silent)

/-- Whether a `check_item` call emits a diagnostic. -/
def emits (self : UseCratePrefixForSelfImports) (cx : EarlyContext) (item : Item) : Bool :=
  match (check_item self cx item).2 with
  | ItemResult.emitted _ => true
  | _ => false

/-- A real local-crate source file with the given local path. -/
def projFile (p : PathBuf) : SourceFile :=
  { name := FileName.real (some p), cnum := LOCAL_CRATE }

/-! ## Concrete inputs used by counterexamples and witnesses -/

/-- A context with no retrievable snippet for any span. -/
def cx_nosnip : EarlyContext :=
  { source_files := [], working_dir_local_path := none, snippet := fun _ => none }

/-- A pass state whose module set is exactly `{"foo"}`. -/
def st_foo : UseCratePrefixForSelfImports := ⟨{"foo"}⟩

/-- The item `use foo::bar;` with span id 0. -/
def item_foo_bar : Item :=
  { kind := ItemKind.use { prefix_segments := [⟨"foo"⟩, ⟨"bar"⟩], span := 0 } }

/-- A context whose span 0 resolves to the text `foo::bar`. -/
def cx_foo_bar : EarlyContext :=
  { source_files := [], working_dir_local_path := none,
    snippet := fun _ => some ("foo::bar") }

/-- C1: flagged import whose span has no retrievable text: the code calls
`snippet_opt(cx, use_tree.span).unwrap()`, so instead of suppressing the
diagnostic it panics. -/
theorem snippet_unavailable_panics :
    (check_item st_foo cx_nosnip item_foo_bar).2 = ItemResult.panicked := by
  decide

/-- The diagnostic the matcher emits for `use foo::bar;` under
`mod_set = {"foo"}`. -/
def diag_foo_bar : Diagnostic :=
  { span := 0, msg := "this import is not clear", help := "prefix with `crate::`",
    sugg := "crate::foo::bar", applicability := Applicability.MachineApplicable }

/-- C2 counterexample: the emitted diagnostic's message is the literal
`this import is not clear`, not `this import is ambiguous as to its
origin`. -/
theorem lint_message_counterexample :
    (check_item st_foo cx_foo_bar item_foo_bar).2 = ItemResult.emitted diag_foo_bar ∧
    diag_foo_bar.msg ≠ "this import is ambiguous as to its origin" := by
  constructor
  · decide
  · decide

/-- C2 amended: every diagnostic the matcher emits carries exactly the
fixed message `this import is not clear`. -/
theorem lint_message_fixed (st : UseCratePrefixForSelfImports) (cx : EarlyContext)
    (item : Item) (d : Diagnostic)
    (h : (check_item st cx item).2 = ItemResult.emitted d) :
    d.msg = "this import is not clear" := by
  unfold check_item at h
  split at h
  · split at h
    · split at h
      · split at h
        · cases h
          rfl
        · cases h
      · cases h
    · cases h
  · cases h

/-- Witness for `lint_message_fixed` at a concrete emitted diagnostic. -/
theorem lint_message_fixed_witness : diag_foo_bar.msg = "this import is not clear" :=
  lint_message_fixed st_foo cx_foo_bar item_foo_bar diag_foo_bar (by decide)

/-- C9: `check_item` never changes the pass state; `mod_set` is read-only
during the matching phase. -/
theorem check_item_frame (st : UseCratePrefixForSelfImports) (cx : EarlyContext)
    (item : Item) : (check_item st cx item).1 = st := by
  unfold check_item
  split
  · split
    · split
      · split
        · rfl
        · rfl
      · rfl
    · rfl
  · rfl

/-- C10: a `use` item whose path has no segments at all never produces a
diagnostic, whatever the module set. -/
theorem empty_use_tree_silent (st : UseCratePrefixForSelfImports) (cx : EarlyContext)
    (sp : Nat) :
    (check_item st cx { kind := ItemKind.use { prefix_segments := [], span := sp } }).2 =
      ItemResult.silent := rfl

/-! ## The qualifier token is not special-cased (C3, C4) -/

/-- A context whose source map holds the local-crate file `src/crate.rs`
(loadable via `#[path]` or `include!`), with a resolvable working
directory and with span 0 resolving to the text `crate::foo`. -/
def cx_crate_file : EarlyContext :=
  { source_files := [projFile ⟨false, ["src", "crate.rs"]⟩],
    working_dir_local_path := some ⟨true, ["home", "proj"]⟩,
    snippet := fun _ => some ("crate::foo") }

/-- The module set the collector derives from `cx_crate_file`. -/
def st_crate : UseCratePrefixForSelfImports :=
  check_crate UseCratePrefixForSelfImports.default cx_crate_file

/-- The item `use crate::foo;` with span id 0. -/
def item_crate_foo : Item :=
  { kind := ItemKind.use { prefix_segments := [⟨"crate"⟩, ⟨"foo"⟩], span := 0 } }

/-- C3 counterexample: the collector inserts the module name `crate`
(from the file `src/crate.rs`), and the matcher then flags the import
`use crate::foo;` even though its leading segment is the qualifier
itself — the claimed iff fails because its right side demands the leading
segment differ from `crate`. -/
theorem qualifier_flagged_counterexample :
    "crate" ∈ st_crate.mod_set ∧
    emits st_crate cx_crate_file item_crate_foo = true ∧
    ¬ ("crate" ∈ st_crate.mod_set ∧ ("crate" : String) ≠ "crate") := by
  refine ⟨by decide, by decide, ?_⟩
  intro h
  exact h.2 rfl

/-- C3 amended: a diagnostic is emitted for a `use` item iff it has a
leading path segment, that segment's name is in the module set, and the
span's text is retrievable; the code performs no separate exclusion of the
qualifier `crate`. -/
theorem emits_iff_leading_segment_in_mod_set (st : UseCratePrefixForSelfImports)
    (cx : EarlyContext) (tree : UseTree) :
    emits st cx { kind := ItemKind.use tree } = true ↔
      ∃ x, tree.prefix_segments.head? = some x ∧ x.ident_name ∈ st.mod_set ∧
        (cx.snippet tree.span).isSome = true := by
  unfold emits check_item
  cases hx : tree.prefix_segments.head? with
  | none => simp [hx]
  | some x =>
    by_cases hm : x.ident_name ∈ st.mod_set
    · cases hs : cx.snippet tree.span with
      | none => simp [hx, hm, hs]
      | some snip => simp [hx, hm, hs]
    · simp [hx, hm]

/-- A context for the idempotence counterexample: the local-crate files
`src/foo.rs` and `src/crate.rs`, span 0 resolving to `foo::bar` and span 1
to `crate::foo::bar`. -/
def cx_idem : EarlyContext :=
  { source_files := [projFile ⟨false, ["src", "foo.rs"]⟩,
      projFile ⟨false, ["src", "crate.rs"]⟩],
    working_dir_local_path := some ⟨true, ["home", "proj"]⟩,
    snippet := fun sp => if sp = 0 then some ("foo::bar") else some ("crate::foo::bar") }

/-- The module set the collector derives from `cx_idem`. -/
def st_idem : UseCratePrefixForSelfImports :=
  check_crate UseCratePrefixForSelfImports.default cx_idem

/-- The rewritten item `use crate::foo::bar;` (the parse of the suggestion
for `item_foo_bar`), with span id 1. -/
def item_crate_foo_bar : Item :=
  { kind := ItemKind.use { prefix_segments := [⟨"crate"⟩, ⟨"foo"⟩, ⟨"bar"⟩], span := 1 } }

/-- C4 counterexample: from the files `src/foo.rs` and `src/crate.rs` the
collector puts both `foo` and `crate` into the module set; `use foo::bar;`
is flagged with suggestion `crate::foo::bar`, and re-running the matcher
on the rewritten import flags it again, because `crate` is a member of the
collector-produced set. -/
theorem fix_not_idempotent_counterexample :
    "crate" ∈ st_idem.mod_set ∧
    (check_item st_idem cx_idem item_foo_bar).2 = ItemResult.emitted diag_foo_bar ∧
    emits st_idem cx_idem item_crate_foo_bar = true := by
  refine ⟨by decide, by decide, by decide⟩

/-- C4 amended: whenever the qualifier `crate` is not in the module set
(which the collector guarantees only when no project file's second path
component has stem `crate`), an import whose leading segment is `crate` —
in particular any import rewritten by the suggested fix — is never
flagged. -/
theorem rewritten_import_not_reflagged (st : UseCratePrefixForSelfImports)
    (cx : EarlyContext) (tree : UseTree)
    (hx : tree.prefix_segments.head? = some ⟨"crate"⟩)
    (hM : "crate" ∉ st.mod_set) :
    emits st cx { kind := ItemKind.use tree } = false := by
  unfold emits check_item
  simp [hx, hM]

/-- Witness for `rewritten_import_not_reflagged`: with an empty module set
the rewritten import `use crate::foo::bar;` is not flagged. -/
theorem rewritten_import_not_reflagged_witness :
    emits UseCratePrefixForSelfImports.default cx_foo_bar item_crate_foo_bar = false :=
  rewritten_import_not_reflagged UseCratePrefixForSelfImports.default cx_foo_bar
    { prefix_segments := [⟨"crate"⟩, ⟨"foo"⟩, ⟨"bar"⟩], span := 1 } rfl (by decide)

/-- C5: the suggestion is exactly the qualifier token, `::`, then the
original span text unchanged. -/
theorem suggestion_round_trip (st : UseCratePrefixForSelfImports) (cx : EarlyContext)
    (tree : UseTree) (d : Diagnostic)
    (h : (check_item st cx { kind := ItemKind.use tree }).2 = ItemResult.emitted d) :
    ∃ orig, cx.snippet tree.span = some orig ∧ d.sugg = "crate" ++ "::" ++ orig := by
  simp only [check_item] at h
  cases hx : tree.prefix_segments.head? with
  | none => simp [hx] at h
  | some x =>
    simp only [hx] at h
    by_cases hm : x.ident_name ∈ st.mod_set
    · simp only [hm, if_true] at h
      cases hs : cx.snippet tree.span with
      | none => simp [hs] at h
      | some snip =>
        simp only [hs] at h
        cases h
        exact ⟨snip, rfl, rfl⟩
    · simp [hm] at h

/-- Witness for `suggestion_round_trip` at the concrete flagged import
`use foo::bar;`. -/
theorem suggestion_round_trip_witness :
    ∃ orig, cx_foo_bar.snippet 0 = some orig ∧
      diag_foo_bar.sugg = "crate" ++ "::" ++ orig :=
  suggestion_round_trip st_foo cx_foo_bar
    { prefix_segments := [⟨"foo"⟩, ⟨"bar"⟩], span := 0 } diag_foo_bar (by decide)

/-! ## Collector properties (C6, C7, C8) -/

/-- C6: for a project-owned file with root-relative component list
`comps`, the collector contributes to the module set exactly the file stem
of the component at index 1 — nothing when fewer than two components (or
no stem) exist. -/
theorem mod_set_membership_after_collect (trim : PathBuf) (s : Finset String)
    (comps : List String) (y : String) :
    y ∈ collect_file trim s (projFile ⟨false, comps⟩) ↔
      y ∈ s ∨ ∃ c, comps.get? 1 = some c ∧ file_stem c = some y := by
  have hcf : collect_file trim s (projFile ⟨false, comps⟩) =
      insert_mod_from s ⟨false, comps⟩ := rfl
  rw [hcf]
  unfold insert_mod_from
  cases h1 : comps.get? 1 with
  | none => simp [h1]
  | some c =>
    cases h2 : file_stem c with
    | none => simp [h1, h2]
    | some m => simp [h1, h2, Finset.mem_insert, or_comm, eq_comm]

/-- C7: when the working directory has no local path, `check_crate` leaves
the default state's module set empty and `check_item` then emits nothing
(and does not panic) for any item whatsoever. -/
theorem unresolved_root_is_noop (cx cx2 : EarlyContext) (item : Item)
    (h : cx.working_dir_local_path = none) :
    (check_crate UseCratePrefixForSelfImports.default cx).mod_set = ∅ ∧
    (check_item (check_crate UseCratePrefixForSelfImports.default cx) cx2 item).2 =
      ItemResult.silent := by
  have hc : check_crate UseCratePrefixForSelfImports.default cx =
      UseCratePrefixForSelfImports.default := by
    simp [check_crate, h]
  refine ⟨by rw [hc]; rfl, ?_⟩
  rw [hc]
  rcases item with ⟨k⟩
  cases k with
  | other => rfl
  | use tree =>
    simp only [check_item]
    cases hx : tree.prefix_segments.head? with
    | none => simp [hx]
    | some x => simp [hx, UseCratePrefixForSelfImports.default]

/-- Witness for `unresolved_root_is_noop` at a concrete context with an
unresolvable working directory. -/
theorem unresolved_root_is_noop_witness :
    (check_crate UseCratePrefixForSelfImports.default cx_nosnip).mod_set = ∅ ∧
    (check_item (check_crate UseCratePrefixForSelfImports.default cx_nosnip)
      cx_foo_bar item_foo_bar).2 = ItemResult.silent :=
  unresolved_root_is_noop cx_nosnip cx_foo_bar item_foo_bar rfl

/-- Reduction of `collect_file` on a project file with an absolute path:
the `is_relative` branch is not taken, so the result is governed by
`strip_prefix` against the working directory. -/
theorem collect_file_absolute (trim : PathBuf) (s : Finset String) (p : PathBuf)
    (hp : p.absolute = true) :
    collect_file trim s (projFile p) =
      match  PathBuf.strip_prefix p trim with
      | some relative => insert_mod_from s relative
      | none => s := by
  simp [collect_file, projFile, PathBuf.is_relative, hp, LOCAL_CRATE]

/-- C8: a relative path is used as-is; an absolute path under the root has
the root prefix stripped before the second-component lookup; and a file
whose absolute path lies outside the root is skipped while the fold over
the remaining files is unchanged. -/
theorem path_normalization_and_skip (tcomps qcomps comps extra : List String)
    (s s₀ : Finset String) (files₁ files₂ : List SourceFile)
    (hq :  PathBuf.strip_prefix ⟨true, qcomps⟩ ⟨true, tcomps⟩ = none) :
    collect_file ⟨true, tcomps⟩ s (projFile ⟨false, comps⟩) =
      insert_mod_from s ⟨false, comps⟩ ∧
    collect_file ⟨true, tcomps⟩ s (projFile ⟨true, tcomps ++ extra⟩) =
      insert_mod_from s ⟨false, extra⟩ ∧
    List.foldl (collect_file ⟨true, tcomps⟩) s₀
        (files₁ ++ projFile ⟨true, qcomps⟩ :: files₂) =
      List.foldl (collect_file ⟨true, tcomps⟩) s₀ (files₁ ++ files₂) := by
  have hstrip :  PathBuf.strip_prefix ⟨true, tcomps ++ extra⟩ ⟨true, tcomps⟩ =
      some ⟨false, extra⟩ := by
    simp [ PathBuf.strip_prefix, List.isPrefixOf_iff_prefix, List.prefix_append,
      List.drop_left]
  have hskip : ∀ t : Finset String,
      collect_file ⟨true, tcomps⟩ t (projFile ⟨true, qcomps⟩) = t := by
    intro t
    rw [collect_file_absolute _ _ _ rfl, hq]
  refine ⟨rfl, ?_, ?_⟩
  · rw [collect_file_absolute _ _ _ rfl, hstrip]
  · rw [List.foldl_append, List.foldl_append, List.foldl_cons, hskip]

/-- Witness for `path_normalization_and_skip` at concrete paths: root
`/home`, a relative file `src/a.rs`, an absolute file `/home/src/b.rs`,
and the outside-root file `/etc/x.rs` skipped within a fold. -/
theorem path_normalization_and_skip_witness :
    collect_file ⟨true, ["home"]⟩ ∅ (projFile ⟨false, ["src", "a.rs"]⟩) =
      insert_mod_from ∅ ⟨false, ["src", "a.rs"]⟩ ∧
    collect_file ⟨true, ["home"]⟩ ∅ (projFile ⟨true, ["home"] ++ ["src", "b.rs"]⟩) =
      insert_mod_from ∅ ⟨false, ["src", "b.rs"]⟩ ∧
    List.foldl (collect_file ⟨true, ["home"]⟩) ∅
        ([] ++ projFile ⟨true, ["etc", "x.rs"]⟩ :: [projFile ⟨false, ["src", "c.rs"]⟩]) =
      List.foldl (collect_file ⟨true, ["home"]⟩) ∅ ([] ++ [projFile ⟨false, ["src", "c.rs"]⟩]) :=
  path_normalization_and_skip ["home"] ["etc", "x.rs"] ["src", "a.rs"] ["src", "b.rs"]
    ∅ ∅ [] [projFile ⟨false, ["src", "c.rs"]⟩] (by decide)
